import Mathlib

/-!
Shallow embedding of the Research-Vault Tauri backend
(`src/app/src-tauri/src`): the task service, the project service and the
SQLite persistence layer, together with theorems settling the spec claims.

Conventions of the embedding:
* Rust `String` is Lean `String`; `i64`/`i32` timestamps and orders are `Int`.
* `AppResult<T> = Result<T, AppError>` is `Except AppError T`.
* The SQLite `tasks` / `projects` tables are modelled as `List Task` /
  `List Project` in insertion order.
* Effectful service functions thread the table state explicitly and return
  it next to the result; a function whose Rust body performs no database
  access (the task service is a stub: every database step is a `TODO`
  comment) returns the table unchanged, which is exactly what the source
  does.
* Nondeterministic inputs of the source (`Uuid::new_v4()`,
  `chrono::Utc::now().timestamp()`, filesystem and git outcomes, the mutex
  on the connection) are passed in as explicit parameters.
-/

namespace ResearchVault

/-- Model of `AppError` from `src/error.rs`, constructor for constructor.
Payloads that are `io::Error` / process output in Rust are kept as the
message string. -/
inductive AppError where
  | Database (msg : String)
  | FileSystem (msg : String)
  | Git (msg : String)
  | NotFound (kind : String) (id : String)
  | InvalidInput (msg : String)
  | PermissionDenied (msg : String)
  | Conflict (msg : String)
  | Internal (msg : String)
  | Serialization (msg : String)
  | System (msg : String)
deriving DecidableEq, Repr

/-- Model of `Task` from `src/models/task.rs`. -/
structure Task where
  id : String
  project_id : String
  parent_id : Option String
  title : String
  description : Option String
  status : String
  priority : String
  due_date : Option Int
  completed_at : Option Int
  created_at : Int
  updated_at : Int
  order : Int
  tags : Option (List String)
deriving DecidableEq, Repr

/-- Model of `CreateTaskDto` from `src/models/task.rs`. -/
structure CreateTaskDto where
  project_id : String
  parent_id : Option String
  title : String
  description : Option String
  status : Option String
  priority : Option String
  due_date : Option Int
  order : Option Int
  tags : Option (List String)
deriving DecidableEq, Repr

/-- Model of `UpdateTaskDto` from `src/models/task.rs`. -/
structure UpdateTaskDto where
  title : Option String
  description : Option String
  status : Option String
  priority : Option String
  due_date : Option Int
  parent_id : Option String
  order : Option Int
  tags : Option (List String)
deriving DecidableEq, Repr

/-- Model of `TaskWithChildren` from `src/models/task.rs`: a task with its
recursively expanded children. -/
inductive TaskWithChildren where
  | node (task : Task) (children : List TaskWithChildren)

/-- Model of `Project` from `src/models/project.rs`. -/
structure Project where
  id : String
  name : String
  path : String
  description : Option String
  status : String
  created_at : Int
  last_modified_at : Int
  tags : Option (List String)
deriving DecidableEq, Repr

/-- Model of `CreateProjectDto` from `src/models/project.rs`. -/
structure CreateProjectDto where
  name : String
  path : String
  description : Option String
  tags : Option (List String)
deriving DecidableEq, Repr

/-- Model of `UpdateProjectDto` from `src/models/project.rs`. -/
structure UpdateProjectDto where
  name : Option String
  description : Option String
  status : Option String
  tags : Option (List String)
deriving DecidableEq, Repr

namespace TaskService

/-- Embedding of `TaskService::create_task` (`src/services/task_service.rs` lines 10-40).
`newId` stands for `Uuid::new_v4().to_string()` and `now` for
`chrono::Utc::now().timestamp()`. The body validates `title` and
`project_id` for non-emptiness, builds the task and returns it; the
database save is a `TODO` in the source, so the table is returned
unchanged and no `parent_id` lookup of any kind happens. -/
def create_task (data : CreateTaskDto) (newId : String) (now : Int)
    (store : List Task) : Except AppError Task × List Task :=
  if data.title = "" then
    (.error (.InvalidInput "Task title cannot be empty"), store)
  else if data.project_id = "" then
    (.error (.InvalidInput "Project ID cannot be empty"), store)
  else
    (.ok { id := newId
           project_id := data.project_id
           parent_id := data.parent_id
           title := data.title
           description := data.description
           status := data.status.getD "todo"
           priority := data.priority.getD "medium"
           due_date := data.due_date
           completed_at := none
           created_at := now
           updated_at := now
           order := data.order.getD 0
           tags := data.tags }, store)

/-- Embedding of `TaskService::list_tasks` (lines 43-50): validates `project_id`, then
`TODO: Fetch from database` and `Ok(vec![])`. -/
def list_tasks (project_id : String) (store : List Task) :
    Except AppError (List Task) × List Task :=
  if project_id = "" then
    (.error (.InvalidInput "Project ID cannot be empty"), store)
  else
    (.ok [], store)

/-- Embedding of `TaskService::list_root_tasks` (lines 53-60). -/
def list_root_tasks (project_id : String) (store : List Task) :
    Except AppError (List Task) × List Task :=
  if project_id = "" then
    (.error (.InvalidInput "Project ID cannot be empty"), store)
  else
    (.ok [], store)

/-- Embedding of `TaskService::list_subtasks` (lines 63-70). -/
def list_subtasks (parent_id : String) (store : List Task) :
    Except AppError (List Task) × List Task :=
  if parent_id = "" then
    (.error (.InvalidInput "Parent ID cannot be empty"), store)
  else
    (.ok [], store)

/-- Embedding of `TaskService::get_task` (lines 73-80): validates the id, then
`TODO: Fetch from database` and `Err(NotFound)` unconditionally. -/
def get_task (id : String) (store : List Task) :
    Except AppError Task × List Task :=
  if id = "" then
    (.error (.InvalidInput "Task ID cannot be empty"), store)
  else
    (.error (.NotFound "Task" id), store)

/-- Embedding of `TaskService::get_task_hierarchy` (lines 83-90): validates the id, then
`TODO: Fetch from database with hierarchy` and `Err(NotFound)`
unconditionally. -/
def get_task_hierarchy (id : String) (store : List Task) :
    Except AppError TaskWithChildren × List Task :=
  if id = "" then
    (.error (.InvalidInput "Task ID cannot be empty"), store)
  else
    (.error (.NotFound "Task" id), store)

/-- Embedding of `TaskService::update_task` (lines 93-100): validates the id, then
`TODO: Update in database` and `Err(NotFound)` unconditionally. -/
def update_task (id : String) (data : UpdateTaskDto) (store : List Task) :
    Except AppError Task × List Task :=
  if id = "" then
    (.error (.InvalidInput "Task ID cannot be empty"), store)
  else
    (.error (.NotFound "Task" id), store)

/-- Embedding of `TaskService::delete_task` (lines 103-110): validates the id, then
`TODO: Delete from database (cascade to subtasks)` and `Err(NotFound)`
unconditionally. -/
def delete_task (id : String) (store : List Task) :
    Except AppError Unit × List Task :=
  if id = "" then
    (.error (.InvalidInput "Task ID cannot be empty"), store)
  else
    (.error (.NotFound "Task" id), store)

/-- Embedding of `TaskService::move_task` (lines 113-120): validates the id, then
`TODO: Update parent_id in database` and `Err(NotFound)` unconditionally. -/
def move_task (id : String) (new_parent_id : Option String)
    (store : List Task) : Except AppError Task × List Task :=
  if id = "" then
    (.error (.InvalidInput "Task ID cannot be empty"), store)
  else
    (.error (.NotFound "Task" id), store)

/-- Embedding of `TaskService::reorder_task` (lines 123-130). -/
def reorder_task (id : String) (new_order : Int) (store : List Task) :
    Except AppError Task × List Task :=
  if id = "" then
    (.error (.InvalidInput "Task ID cannot be empty"), store)
  else
    (.error (.NotFound "Task" id), store)

/-- The message `format!("Invalid status: ...", status)` built at
`task_service.rs` lines 140-143 (quote punctuation around the status
elided). -/
def invalidStatusMsg (status : String) : String :=
  "Invalid status " ++ status ++ ". Must be one of: todo, in_progress, done"

/-- Embedding of `TaskService::list_tasks_by_status` (lines 133-148): validates
`project_id`, rejects a status outside
`["todo", "in_progress", "done"]` with `InvalidInput`, then
`TODO: Fetch from database` and `Ok(vec![])`. -/
def list_tasks_by_status (project_id : String) (status : String)
    (store : List Task) : Except AppError (List Task) × List Task :=
  if project_id = "" then
    (.error (.InvalidInput "Project ID cannot be empty"), store)
  else if ¬ (status = "todo" ∨ status = "in_progress" ∨ status = "done") then
    (.error (.InvalidInput (invalidStatusMsg status)), store)
  else
    (.ok [], store)

/-- Embedding of `TaskService::search_tasks` (lines 151-158). -/
def search_tasks (project_id : String) (query : String)
    (store : List Task) : Except AppError (List Task) × List Task :=
  if project_id = "" then
    (.error (.InvalidInput "Project ID cannot be empty"), store)
  else
    (.ok [], store)

end TaskService

namespace DbService

/-- Embedding of `DbService::insert_project` (`src/services/db_service.rs` lines 14-33):
a plain `INSERT INTO projects` of one row. The schema
(`DbService::init` lines 251-260 and the migrations in
`state/app_state.rs`) declares `id TEXT PRIMARY KEY` and
`path TEXT NOT NULL UNIQUE`, so the insert fails with a `rusqlite` error —
surfaced as `AppError::Database` through `From<rusqlite::Error>` in
`src/error.rs` — exactly when the id or the path is already taken. -/
def insert_project (store : List Project) (project : Project) :
    Except AppError (List Project) :=
  if store.any (fun q => q.id == project.id) then
    .error (.Database "UNIQUE constraint failed: projects.id")
  else if store.any (fun q => q.path == project.path) then
    .error (.Database "UNIQUE constraint failed: projects.path")
  else
    .ok (store ++ [project])

/-- Embedding of `DbService::get_project_by_id` (lines 52-65):
`SELECT ... FROM projects WHERE id = ?1`, first row or `None`. -/
def get_project_by_id (store : List Project) (id : String) :
    Option Project :=
  store.find? (fun p => p.id == id)

/-- The effect on one matching row of the `UPDATE projects SET ...`
statement built by `DbService::update_project` (lines 68-100). The
dynamic query always contains `last_modified_at = ?1` and adds
`name = ?2` / `description = ?3` / `status = ?4` / `tags = ?5` exactly
when the corresponding argument is `Some`; the placeholders have fixed
indexes `?1`-`?6`, so the six bound parameters always line up and the
unused ones are simply not referenced by the statement. `path` and
`created_at` never occur in the SET list. -/
def mergeProjectRow (p : Project) (now : Int)
    (name description status : Option String)
    (tags : Option (List String)) : Project :=
  { p with
    last_modified_at := now
    name := match name with | some n => n | none => p.name
    description := match description with | some d => some d | none => p.description
    status := match status with | some s => s | none => p.status
    tags := match tags with | some t => some t | none => p.tags }

/-- Embedding of `DbService::update_project` (lines 68-100): executes the dynamic
`UPDATE projects SET ... WHERE id = ?6`, i.e. applies `mergeProjectRow`
to every row whose id matches (at most one, since id is the primary key)
and leaves every other row untouched. `now` is
`chrono::Utc::now().timestamp()` taken inside the function. -/
def update_project (store : List Project) (id : String) (now : Int)
    (name description status : Option String)
    (tags : Option (List String)) : List Project :=
  store.map (fun p =>
    if p.id == id then mergeProjectRow p now name description status tags
    else p)

/-- Embedding of `DbService::delete_task` (lines 179-182):
`DELETE FROM tasks WHERE id = ?1` — it removes the one row with the given
id and nothing else (no cascade over `parent_id`). -/
def delete_task (store : List Task) (id : String) : List Task :=
  store.filter (fun t => t.id != id)

end DbService

/-- The outcomes of the injected collaborators consulted by
`ProjectService::create_project` (`src/services/project_service.rs`
lines 13-79), in program order: the `fs::metadata(&data.path).is_ok()`
probe, the four `fs::create_dir_all` calls (root, `docs`, `data`,
`notes` subdirectories), `GitService::init` (`src/services/git_service.rs`,
both of whose failure modes yield `AppError::Git`),
`serde_json::to_string_pretty` of the metadata, the `fs::write` of
`research.json`, and the database mutex / `Option<Connection>` state.
An `Except.error` value carries the collaborator's error message. -/
structure ProvisionEnv where
  pathExists : Bool
  createRootDir : Except String Unit
  createDocsDir : Except String Unit
  createDataDir : Except String Unit
  createNotesDir : Except String Unit
  gitInit : Except String Unit
  serializeMetadata : Except String String
  writeMetadata : Except String Unit
  lockOk : Bool
  dbReady : Bool
deriving Repr

namespace ProjectService

/-- Embedding of `ProjectService::create_project` (`src/services/project_service.rs`
lines 13-79), with `newId` for `Uuid::new_v4().to_string()` and `now` for
`chrono::Utc::now().timestamp()`. In source order: validate `name` and
`path` non-empty, reject with `Conflict` when the path exists on disk,
run the provisioning side effects (each failure returning its mapped
error), build the `Project`, take the database lock, and only then
`DbService::insert_project` the row. -/
def create_project (env : ProvisionEnv) (data : CreateProjectDto)
    (newId : String) (now : Int) (store : List Project) :
    Except AppError Project × List Project :=
  if data.name = "" then
    (.error (.InvalidInput "Project name cannot be empty"), store)
  else if data.path = "" then
    (.error (.InvalidInput "Project path cannot be empty"), store)
  else if env.pathExists then
    (.error (.Conflict "Project path already exists"), store)
  else match env.createRootDir with
  | .error e => (.error (.FileSystem e), store)
  | .ok _ => match env.createDocsDir with
    | .error e => (.error (.FileSystem e), store)
    | .ok _ => match env.createDataDir with
      | .error e => (.error (.FileSystem e), store)
      | .ok _ => match env.createNotesDir with
        | .error e => (.error (.FileSystem e), store)
        | .ok _ => match env.gitInit with
          | .error e => (.error (.Git e), store)
          | .ok _ => match env.serializeMetadata with
            | .error e => (.error (.Serialization e), store)
            | .ok _ => match env.writeMetadata with
              | .error e => (.error (.FileSystem e), store)
              | .ok _ =>
                if env.lockOk = false then
                  (.error (.System "Failed to lock database"), store)
                else if env.dbReady = false then
                  (.error (.System "Database not initialized"), store)
                else match DbService.insert_project store
                    { id := newId
                      name := data.name
                      path := data.path
                      description := data.description
                      status := "active"
                      created_at := now
                      last_modified_at := now
                      tags := data.tags } with
                  | .error e => (.error e, store)
                  | .ok store2 =>
                    (.ok { id := newId
                           name := data.name
                           path := data.path
                           description := data.description
                           status := "active"
                           created_at := now
                           last_modified_at := now
                           tags := data.tags }, store2)

/-- Embedding of `ProjectService::update_project` (lines 103-121): take the lock,
require the connection, run `DbService::update_project`, then re-read the
row with `DbService::get_project_by_id` and return it, or `NotFound` when
the id resolves to no row. -/
def update_project (lockOk dbReady : Bool) (id : String)
    (data : UpdateProjectDto) (now : Int) (store : List Project) :
    Except AppError Project × List Project :=
  if lockOk = false then
    (.error (.System "Failed to lock database"), store)
  else if dbReady = false then
    (.error (.System "Database not initialized"), store)
  else
    let store2 := DbService.update_project store id now
      data.name data.description data.status data.tags
    match DbService.get_project_by_id store2 id with
    | some p => (.ok p, store2)
    | none => (.error (.NotFound "Project" id), store2)

end ProjectService

/-! ## Concrete fixtures used by the claim theorems -/

/-- A root task with id `"A"` in project `"p1"`. -/
def taskA : Task :=
  { id := "A", project_id := "p1", parent_id := none, title := "Task A"
    description := none, status := "todo", priority := "medium"
    due_date := none, completed_at := none, created_at := 1, updated_at := 1
    order := 0, tags := none }

/-- A child of `taskA`. -/
def taskB : Task :=
  { taskA with id := "B", parent_id := some "A", title := "Task B" }

/-- A second root task in the same project, unrelated to `taskA`. -/
def taskC : Task :=
  { taskA with id := "C", title := "Task C" }

/-- A valid creation dto whose `parent_id` resolves to no stored task. -/
def dtoWithMissingParent : CreateTaskDto :=
  { project_id := "p1", parent_id := some "missing-parent"
    title := "Task with ghost parent", description := none, status := none
    priority := none, due_date := none, order := none, tags := none }

/-- An update dto that only sets `status` to `"done"`. -/
def dtoSetDone : UpdateTaskDto :=
  { title := none, description := none, status := some "done"
    priority := none, due_date := none, parent_id := none, order := none
    tags := none }

/-- A creation dto for a project at path `"/tmp/r1"`. -/
def dtoProj : CreateProjectDto :=
  { name := "proj", path := "/tmp/r1", description := none, tags := none }

/-- A provisioning environment in which every collaborator succeeds. -/
def envAllOk : ProvisionEnv :=
  { pathExists := false, createRootDir := .ok (), createDocsDir := .ok ()
    createDataDir := .ok (), createNotesDir := .ok (), gitInit := .ok ()
    serializeMetadata := .ok "meta", writeMetadata := .ok ()
    lockOk := true, dbReady := true }

/-- Like `envAllOk` but the target path already exists on disk. -/
def envPathOnDisk : ProvisionEnv :=
  { envAllOk with pathExists := true }

/-- Like `envAllOk` but `git init` fails. -/
def envGitFails : ProvisionEnv :=
  { envAllOk with gitInit := .error "git exploded" }

/-- A pre-existing project row occupying path `"/tmp/r1"`. -/
def projExisting : Project :=
  { id := "P0", name := "existing", path := "/tmp/r1", description := none
    status := "active", created_at := 0, last_modified_at := 0, tags := none }

/-- A persisted project row used by the update-merge theorems. -/
def projP : Project :=
  { id := "P1", name := "proj", path := "/tmp/r1"
    description := some "old text", status := "active", created_at := 10
    last_modified_at := 10, tags := none }

/-- A partial project update dto: sets `name` and `tags`, leaves
`description` and `status` unset. -/
def dtoUpd : UpdateProjectDto :=
  { name := some "renamed", description := none, status := none
    tags := some ["x"] }

/-- Returns `true` exactly on an `Err(Conflict)` result; classifies the error kind
of a `create_project` outcome. -/
def errorIsConflict : Except AppError Project → Bool
  | .error (.Conflict _) => true
  | _ => false

/-! ## Claim theorems -/

/-- Claim C1 (code_bug evidence): with a non-empty title and project id and
a `parent_id` that resolves to no task at all (the task table is empty),
`create_task` still returns `Ok` with that `parent_id` copied into the
task verbatim — the source performs no parent existence or same-project
check (the whole database interaction is a `TODO`), contrary to the
claimed not-found/invalid-input rejection. -/
theorem create_task_skips_parent_validation :
    TaskService.create_task dtoWithMissingParent "new-task-id" 100 [] =
      (.ok { id := "new-task-id", project_id := "p1"
             parent_id := some "missing-parent"
             title := "Task with ghost parent", description := none
             status := "todo", priority := "medium", due_date := none
             completed_at := none, created_at := 100, updated_at := 100
             order := 0, tags := none }, []) := rfl

/-- Claim C2 (code_bug evidence): with root `"A"` and its child `"B"`
stored, `TaskService::delete_task "A"` returns `Err(NotFound)` and removes
nothing (the cascade is a `TODO` in the source), and the db-layer
`DbService::delete_task` removes only the single row `"A"`, leaving the
orphaned child `"B"` — not the claimed N+1-row subtree removal. -/
theorem delete_task_stub_no_cascade :
    TaskService.delete_task "A" [taskA, taskB] =
      (.error (.NotFound "Task" "A"), [taskA, taskB]) ∧
    DbService.delete_task [taskA, taskB] "A" = [taskB] :=
  ⟨rfl, rfl⟩

/-- Claim C3 (code_bug evidence): task `"A"` is stored (with child `"B"`),
yet `get_task_hierarchy "A"` fails with `NotFound` — the source returns
`Err(NotFound)` unconditionally instead of building the claimed
`TaskWithChildren` projection. -/
theorem get_task_hierarchy_stub_not_found :
    taskA.id = "A" ∧
    TaskService.get_task_hierarchy "A" [taskA, taskB] =
      (.error (.NotFound "Task" "A"), [taskA, taskB]) :=
  ⟨rfl, rfl⟩

/-- Claim C4 (code_bug evidence): both `"A"` and `"C"` are stored and `"C"`
is a root task (so not a descendant of `"A"`); the claim says
`move_task "A" (some "C")` must succeed and update the parent, but the
source returns `Err(NotFound)` unconditionally. -/
theorem move_task_stub_not_found :
    taskA.id = "A" ∧ taskC.id = "C" ∧ taskC.parent_id = none ∧
    TaskService.move_task "A" (some "C") [taskA, taskC] =
      (.error (.NotFound "Task" "A"), [taskA, taskC]) :=
  ⟨rfl, rfl, rfl, rfl⟩

/-- Claim C5 (code_bug evidence): task `"A"` is stored with status
`"todo"`, yet `update_task "A" {status: done}` fails with `NotFound` — the
source returns `Err(NotFound)` unconditionally and never derives
`completed_at`. -/
theorem update_task_stub_not_found :
    taskA.id = "A" ∧ taskA.status = "todo" ∧
    TaskService.update_task "A" dtoSetDone [taskA] =
      (.error (.NotFound "Task" "A"), [taskA]) :=
  ⟨rfl, rfl, rfl⟩

/-- Claim C9: for every non-empty project id and every status outside
`{todo, in_progress, done}`, `list_tasks_by_status` returns `InvalidInput`
and the task table is untouched (the function performs no store access on
this path). -/
theorem list_tasks_by_status_rejects_invalid_status (project_id status : String)
    (store : List Task) (hpid : project_id ≠ "")
    (hstatus : ¬ (status = "todo" ∨ status = "in_progress" ∨ status = "done")) :
    TaskService.list_tasks_by_status project_id status store =
      (.error (.InvalidInput (TaskService.invalidStatusMsg status)), store) := by
  simp [TaskService.list_tasks_by_status, hpid, hstatus]

/-- Witness for C9 at `project_id = "p1"`, `status = "bogus"`. -/
theorem list_tasks_by_status_rejects_invalid_status_witness :
    TaskService.list_tasks_by_status "p1" "bogus" [taskA] =
      (.error (.InvalidInput (TaskService.invalidStatusMsg "bogus")), [taskA]) :=
  list_tasks_by_status_rejects_invalid_status "p1" "bogus" [taskA]
    (by decide) (by decide)

/-- Claim C10: for every non-empty project id / parent id and every task
table whatsoever, the four task read operations return `Ok []` with the
table unchanged — the read path never consults the store, so no stored
task is observable through them. -/
theorem task_reads_never_consult_store (project_id parent_id q : String)
    (store : List Task) (hp : project_id ≠ "") (hpar : parent_id ≠ "") :
    TaskService.list_tasks project_id store = (.ok [], store) ∧
    TaskService.list_root_tasks project_id store = (.ok [], store) ∧
    TaskService.list_subtasks parent_id store = (.ok [], store) ∧
    TaskService.search_tasks project_id q store = (.ok [], store) := by
  refine ⟨?_, ?_, ?_, ?_⟩ <;>
    simp [TaskService.list_tasks, TaskService.list_root_tasks,
      TaskService.list_subtasks, TaskService.search_tasks, hp, hpar]

/-- Witness for C10 on a store that does contain tasks. -/
theorem task_reads_never_consult_store_witness :
    TaskService.list_tasks "p1" [taskA, taskB] = (.ok [], [taskA, taskB]) ∧
    TaskService.list_root_tasks "p1" [taskA, taskB] = (.ok [], [taskA, taskB]) ∧
    TaskService.list_subtasks "A" [taskA, taskB] = (.ok [], [taskA, taskB]) ∧
    TaskService.search_tasks "p1" "Task" [taskA, taskB] = (.ok [], [taskA, taskB]) :=
  task_reads_never_consult_store "p1" "A" "Task" [taskA, taskB]
    (by decide) (by decide)

/-- Helper: on every error exit of `create_project` the project table comes
back unchanged (the row insert is the last step, after every side effect). -/
theorem create_project_error_frame_aux (env : ProvisionEnv)
    (data : CreateProjectDto) (newId : String) (now : Int)
    (store : List Project) (e : AppError) (st : List Project)
    (h : ProjectService.create_project env data newId now store =
      (.error e, st)) : st = store := by
  unfold ProjectService.create_project at h
  repeat' split at h
  all_goals
    first
    | (injection h with h1 h2; exact h2.symm)
    | (injection h with h1 h2; exact Except.noConfusion h1)

/-- Claim C6: all-or-nothing project creation. On every error exit of
`create_project` the project table is unchanged (no row is persisted), and
each provisioning side-effect failure surfaces as its corresponding error
kind: directory creation as `FileSystem`, repository init as `Git`,
metadata file write as `FileSystem`. -/
theorem create_project_all_or_nothing (env : ProvisionEnv)
    (data : CreateProjectDto) (newId : String) (now : Int)
    (store : List Project) :
    (∀ e, (ProjectService.create_project env data newId now store).1 =
        .error e →
      (ProjectService.create_project env data newId now store).2 = store) ∧
    (∀ m, data.name ≠ "" → data.path ≠ "" → env.pathExists = false →
      env.createRootDir = .error m →
      ProjectService.create_project env data newId now store =
        (.error (.FileSystem m), store)) ∧
    (∀ m, data.name ≠ "" → data.path ≠ "" → env.pathExists = false →
      env.createRootDir = .ok () → env.createDocsDir = .ok () →
      env.createDataDir = .ok () → env.createNotesDir = .ok () →
      env.gitInit = .error m →
      ProjectService.create_project env data newId now store =
        (.error (.Git m), store)) ∧
    (∀ m meta, data.name ≠ "" → data.path ≠ "" → env.pathExists = false →
      env.createRootDir = .ok () → env.createDocsDir = .ok () →
      env.createDataDir = .ok () → env.createNotesDir = .ok () →
      env.gitInit = .ok () → env.serializeMetadata = .ok meta →
      env.writeMetadata = .error m →
      ProjectService.create_project env data newId now store =
        (.error (.FileSystem m), store)) := by
  refine ⟨?_, ?_, ?_, ?_⟩
  · intro e h
    exact create_project_error_frame_aux env data newId now store e _
      (by rw [← h])
  · intro m hn hp hd hroot
    simp [ProjectService.create_project, hn, hp, hd, hroot]
  · intro m hn hp hd hroot hdocs hdata hnotes hgit
    simp [ProjectService.create_project, hn, hp, hd, hroot, hdocs, hdata,
      hnotes, hgit]
  · intro m meta hn hp hd hroot hdocs hdata hnotes hgit hser hwrite
    simp [ProjectService.create_project, hn, hp, hd, hroot, hdocs, hdata,
      hnotes, hgit, hser, hwrite]

/-- Witness for C6: a failing `git init` aborts creation with a `Git` error
and leaves the (empty) project table untouched. -/
theorem create_project_all_or_nothing_witness :
    ProjectService.create_project envGitFails dtoProj "P1" 50 [] =
      (.error (.Git "git exploded"), []) :=
  (create_project_all_or_nothing envGitFails dtoProj "P1" 50 []).2.2.1
    "git exploded" (by decide) (by decide) rfl rfl rfl rfl rfl rfl

/-- Counterexample to claim C7 as stated: the path `"/tmp/r1"` does not
exist on disk but already occupies the `path` column of stored row
`projExisting`; `create_project` then fails with error kind `Database`
(the SQLite UNIQUE constraint surfaced through
`From<rusqlite::Error>`), not the claimed `Conflict`. -/
theorem create_project_row_duplicate_not_conflict :
    (ProjectService.create_project envAllOk dtoProj "P1" 50
        [projExisting]).1 =
      .error (.Database "UNIQUE constraint failed: projects.path") ∧
    errorIsConflict
      (ProjectService.create_project envAllOk dtoProj "P1" 50
        [projExisting]).1 = false :=
  ⟨rfl, rfl⟩

/-- Claim C7 as amended: when the dto path already exists on disk,
`create_project` fails with `Conflict` and persists no row; when the path
is absent on disk but already occupies the `path` column of a stored row,
the insert fails and the error surfaces with kind `Database` (from the
UNIQUE constraint), not `Conflict` — and still no row is persisted. -/
theorem create_project_duplicate_path_behavior (env : ProvisionEnv)
    (data : CreateProjectDto) (newId : String) (now : Int)
    (store : List Project) :
    (data.name ≠ "" → data.path ≠ "" → env.pathExists = true →
      ProjectService.create_project env data newId now store =
        (.error (.Conflict "Project path already exists"), store)) ∧
    (∀ meta, data.name ≠ "" → data.path ≠ "" → env.pathExists = false →
      env.createRootDir = .ok () → env.createDocsDir = .ok () →
      env.createDataDir = .ok () → env.createNotesDir = .ok () →
      env.gitInit = .ok () → env.serializeMetadata = .ok meta →
      env.writeMetadata = .ok () → env.lockOk = true → env.dbReady = true →
      store.any (fun q => q.id == newId) = false →
      store.any (fun q => q.path == data.path) = true →
      ProjectService.create_project env data newId now store =
        (.error (.Database "UNIQUE constraint failed: projects.path"),
         store)) := by
  constructor
  · intro hn hp hd
    simp [ProjectService.create_project, hn, hp, hd]
  · intro meta hn hp hd hroot hdocs hdata hnotes hgit hser hwrite hlock hdb
      hidfree hpathdup
    simp [ProjectService.create_project, DbService.insert_project, hn, hp,
      hd, hroot, hdocs, hdata, hnotes, hgit, hser, hwrite, hlock, hdb,
      hidfree, hpathdup]

/-- Witness for C7 (amended): both duplicate cases at concrete inputs. -/
theorem create_project_duplicate_path_behavior_witness :
    ProjectService.create_project envPathOnDisk dtoProj "P1" 50 [] =
      (.error (.Conflict "Project path already exists"), []) ∧
    ProjectService.create_project envAllOk dtoProj "P1" 50 [projExisting] =
      (.error (.Database "UNIQUE constraint failed: projects.path"),
       [projExisting]) :=
  ⟨(create_project_duplicate_path_behavior envPathOnDisk dtoProj "P1" 50
      []).1 (by decide) (by decide) rfl,
   (create_project_duplicate_path_behavior envAllOk dtoProj "P1" 50
      [projExisting]).2 "meta" (by decide) (by decide) rfl rfl rfl rfl rfl
      rfl rfl rfl rfl rfl rfl rfl⟩

/-- Helper: `find?` over a map that rewrites exactly the id-matching rows
with an id-preserving function returns the rewritten found row. -/
theorem find_map_update (store : List Project) (id : String)
    (f : Project → Project) (hid : ∀ q, (f q).id = q.id) (p : Project)
    (h : store.find? (fun q => q.id == id) = some p) :
    (store.map fun q => if q.id == id then f q else q).find?
        (fun q => q.id == id) = some (f p) := by
  induction store with
  | nil => simp at h
  | cons q rest ih =>
    rw [List.map_cons]
    by_cases hq : (q.id == id) = true
    · rw [@List.find?_cons_of_pos _ (fun r => r.id == id) q rest hq] at h
      injection h with h
      subst h
      rw [if_pos hq]
      exact @List.find?_cons_of_pos _ (fun r => r.id == id) (f q)
        (List.map (fun r => if r.id == id then f r else r) rest)
        (by simp only [hid]; exact hq)
    · rw [@List.find?_cons_of_neg _ (fun r => r.id == id) q rest hq] at h
      rw [if_neg hq]
      rw [@List.find?_cons_of_neg _ (fun r => r.id == id) q
        (List.map (fun r => if r.id == id then f r else r) rest) hq]
      exact ih h

/-- Helper: re-reading an id through `get_project_by_id` after
`update_project` yields the merged row. -/
theorem get_after_update (store : List Project) (id : String) (now : Int)
    (n d s : Option String) (t : Option (List String)) (p : Project)
    (h : DbService.get_project_by_id store id = some p) :
    DbService.get_project_by_id
        (DbService.update_project store id now n d s t) id =
      some (DbService.mergeProjectRow p now n d s t) :=
  find_map_update store id
    (fun q => DbService.mergeProjectRow q now n d s t) (fun _ => rfl) p h

/-- Claim C8: for every stored project resolved by `id` and every
`UpdateProjectDto`, `update_project` returns the merged row and writes
back exactly the merge: `last_modified_at` is always refreshed to `now`;
`name`/`status` are replaced only when supplied (else kept);
`description`/`tags` are replaced only when supplied (else kept); `path`
and `created_at` are never changed. -/
theorem update_project_partial_merge (id : String)
    (data : UpdateProjectDto) (now : Int) (store : List Project)
    (p : Project) (h : DbService.get_project_by_id store id = some p) :
    ProjectService.update_project true true id data now store =
      (.ok (DbService.mergeProjectRow p now data.name data.description
          data.status data.tags),
       DbService.update_project store id now data.name data.description
         data.status data.tags) ∧
    (DbService.mergeProjectRow p now data.name data.description data.status
      data.tags).path = p.path ∧
    (DbService.mergeProjectRow p now data.name data.description data.status
      data.tags).created_at = p.created_at ∧
    (DbService.mergeProjectRow p now data.name data.description data.status
      data.tags).last_modified_at = now ∧
    (DbService.mergeProjectRow p now data.name data.description data.status
      data.tags).name = data.name.getD p.name ∧
    (DbService.mergeProjectRow p now data.name data.description data.status
      data.tags).status = data.status.getD p.status ∧
    (data.description = none →
      (DbService.mergeProjectRow p now data.name data.description
        data.status data.tags).description = p.description) ∧
    (∀ d, data.description = some d →
      (DbService.mergeProjectRow p now data.name data.description
        data.status data.tags).description = some d) ∧
    (data.tags = none →
      (DbService.mergeProjectRow p now data.name data.description
        data.status data.tags).tags = p.tags) ∧
    (∀ t, data.tags = some t →
      (DbService.mergeProjectRow p now data.name data.description
        data.status data.tags).tags = some t) := by
  refine ⟨?_, rfl, rfl, rfl, ?_, ?_, ?_, ?_, ?_, ?_⟩
  · have hfind := get_after_update store id now data.name data.description
      data.status data.tags p h
    simp [ProjectService.update_project, hfind]
  · cases hdn : data.name <;>
      simp [DbService.mergeProjectRow, hdn, Option.getD]
  · cases hds : data.status <;>
      simp [DbService.mergeProjectRow, hds, Option.getD]
  · intro hdd
    simp [DbService.mergeProjectRow, hdd]
  · intro d hdd
    simp [DbService.mergeProjectRow, hdd]
  · intro hdt
    simp [DbService.mergeProjectRow, hdt]
  · intro t hdt
    simp [DbService.mergeProjectRow, hdt]

/-- Witness for C8: update row `"P1"` with a dto supplying `name` and
`tags` only. -/
theorem update_project_partial_merge_witness :
    ProjectService.update_project true true "P1" dtoUpd 99 [projP] =
      (.ok (DbService.mergeProjectRow projP 99 dtoUpd.name
          dtoUpd.description dtoUpd.status dtoUpd.tags),
       DbService.update_project [projP] "P1" 99 dtoUpd.name
         dtoUpd.description dtoUpd.status dtoUpd.tags) :=
  (update_project_partial_merge "P1" dtoUpd 99 [projP] projP rfl).1

end ResearchVault
